import Mathlib

/-!
Verification of the date-column resolution heuristic and build/dashboard glue
of the nyctaxi-streamlit repository.

The definitions below are a shallow embedding of `build_duckdb.py` and of
`filter_by_date_service` from `streamlit_app.py`.  Column names and SQL
expression strings are Lean `String`s; Python's `str.lower` is modelled with
`Char.toLower`, substring tests with `List.IsInfix` on the underlying
character lists, and suffix tests with `List.IsSuffix`.
-/

namespace NYCTaxi

/-- Python `s.lower()`: lower-case every character. -/
def strLower (s : String) : String := ⟨s.data.map Char.toLower⟩

/-- Python `pat in s`: `pat` occurs as a contiguous substring of `s`. -/
def strHas (pat s : String) : Bool := decide (pat.data <:+: s.data)

/-- Python `s.endswith(pat)`. -/
def strEndsWith (pat s : String) : Bool := decide (pat.data <:+ s.data)

/-- Python `any(ch in orig for ch in chars)`. -/
def hasAnyChar (orig : String) (chars : List Char) : Bool :=
  chars.any (fun ch => orig.data.contains ch)

/-- The characters of the Python literal `' -"'` iterated by the quoting test. -/
def SPECIAL_CHARS : List Char := [' ', '-', '"']

/-- `DATE_CANDIDATES` from build_duckdb.py: the fixed tier-1 priority list. -/
def DATE_CANDIDATES : List String :=
  ["pickup_date", "date", "service_date",
   "pickup_datetime", "tpep_pickup_datetime", "lpep_pickup_datetime",
   "fhv_pickup_datetime", "fhvhv_pickup_datetime"]

/-- The dict `{c.lower(): c for c in cols}` looked up at `key`: later columns
overwrite earlier ones on a lower-case collision, so the lookup returns the
last column whose lower-casing equals `key`. -/
def lowerLookup (cols : List String) (key : String) : Option String :=
  cols.reverse.find? (fun c => strLower c == key)

/-- Tier-1 quoting from build_duckdb.py line 44:
`t."orig"` when `orig.lower() == "date"` or `orig` holds a space, hyphen or
double quote, else `t.orig`. -/
def quoteTier1 (orig : String) : String :=
  if strLower orig == "date" || hasAnyChar orig SPECIAL_CHARS
  then "t.\"" ++ orig ++ "\"" else "t." ++ orig

/-- Tier-2 quoting from build_duckdb.py line 51 (no reserved-word check). -/
def quoteTier2 (orig : String) : String :=
  if hasAnyChar orig SPECIAL_CHARS
  then "t.\"" ++ orig ++ "\"" else "t." ++ orig

/-- The columns selected by the tier-1 loop (lines 41-45), in the priority
order of `DATE_CANDIDATES`. -/
def tier1Cols (cols : List String) : List String :=
  DATE_CANDIDATES.filterMap (fun cname => lowerLookup cols (strLower cname))

/-- The expressions appended by the tier-1 loop. -/
def tier1Exprs (cols : List String) : List String :=
  (tier1Cols cols).map (fun orig => "TRY_CAST(" ++ quoteTier1 orig ++ " AS DATE)")

/-- The tier-2 condition of build_duckdb.py line 50. -/
def tier2Pred (orig : String) : Bool :=
  strHas "date" (strLower orig) || strHas "datetime" (strLower orig)
    || (strLower orig == "dt" || strLower orig == "ds" || strLower orig == "day")
    || strEndsWith "_date" (strLower orig)

/-- The columns selected by the tier-2 loop (lines 47-52), in original order. -/
def tier2Cols (cols : List String) : List String := cols.filter tier2Pred

/-- The expressions appended by the tier-2 loop. -/
def tier2Exprs (cols : List String) : List String :=
  (tier2Cols cols).map (fun orig => "TRY_CAST(" ++ quoteTier2 orig ++ " AS DATE)")

/-- The tier-3 condition of build_duckdb.py line 57. -/
def tier3Pred (orig : String) : Bool :=
  strLower orig == "date_key" || strEndsWith "_date_key" (strLower orig)

/-- The columns selected by the tier-3 loop (lines 54-58), in original order. -/
def tier3Cols (cols : List String) : List String := cols.filter tier3Pred

/-- The expressions appended by the tier-3 loop (note: no quoting). -/
def tier3Exprs (cols : List String) : List String :=
  (tier3Cols cols).map (fun orig =>
    "TRY_CAST(STRPTIME(CAST(t." ++ orig ++ " AS VARCHAR), '%Y%m%d') AS DATE)")

/-- The final contents of the Python list `exprs`: tier 1, and each later tier
only when every earlier tier appended nothing. -/
def usedExprs (cols : List String) : List String :=
  if (tier1Exprs cols).isEmpty then
    (if (tier2Exprs cols).isEmpty then tier3Exprs cols else tier2Exprs cols)
  else tier1Exprs cols

/-- `build_date_expr` from build_duckdb.py lines 35-59. -/
def build_date_expr (cols : List String) : String :=
  if (usedExprs cols).isEmpty then "NULL::DATE"
  else "COALESCE(" ++ String.intercalate ", " (usedExprs cols) ++ ")"

example : build_date_expr ["tpep_pickup_datetime", "trips"]
    = "COALESCE(TRY_CAST(t.tpep_pickup_datetime AS DATE))" := by decide

example : build_date_expr ["Date", "service_date"]
    = "COALESCE(TRY_CAST(t.\"Date\" AS DATE), TRY_CAST(t.service_date AS DATE))" := by
  decide

example : build_date_expr ["trip_date_key"]
    = "COALESCE(TRY_CAST(t.trip_date_key AS DATE))" := by decide

example : build_date_expr ["zone", "trips"] = "NULL::DATE" := by decide

example : build_date_expr ["my date", "x"]
    = "COALESCE(TRY_CAST(t.\"my date\" AS DATE))" := by decide

/-! Helper lemmas about the tier machinery. -/

theorem isEmpty_eq_nil {α : Type} {l : List α} (h : l.isEmpty = true) : l = [] := by
  cases l with
  | nil => rfl
  | cons a t => simp [List.isEmpty] at h

theorem isEmpty_false_of_ne_nil {α : Type} {l : List α} (h : l ≠ []) :
    l.isEmpty = false := by
  cases l with
  | nil => exact absurd rfl h
  | cons a t => rfl

theorem sub_trans_suffix {a b c : List Char} (h1 : a <:+: b) (h2 : b <:+ c) :
    a <:+: c := by
  obtain ⟨l, r, hb⟩ := h1
  obtain ⟨p, hc⟩ := h2
  exact ⟨p ++ l, r, by rw [← hc, ← hb]; simp⟩

theorem lowerLookup_eq_some {cols : List String} {key orig : String}
    (h : lowerLookup cols key = some orig) : orig ∈ cols ∧ strLower orig = key := by
  rw [lowerLookup] at h
  have hmem := List.mem_of_find?_eq_some h
  have hp := List.find?_some h
  exact ⟨List.mem_reverse.mp hmem, by simpa using hp⟩

theorem lowerLookup_isSome {cols : List String} {key c : String}
    (hc : c ∈ cols) (hk : strLower c = key) :
    ∃ orig, lowerLookup cols key = some orig := by
  rw [lowerLookup]
  have hsome : (cols.reverse.find? (fun c => strLower c == key)).isSome := by
    rw [List.find?_isSome]
    exact ⟨c, List.mem_reverse.mpr hc, by simp [hk]⟩
  exact Option.isSome_iff_exists.mp hsome

theorem candidate_lower_self {cand : String} (h : cand ∈ DATE_CANDIDATES) :
    strLower cand = cand := by
  simp only [DATE_CANDIDATES, List.mem_cons, List.not_mem_nil, or_false] at h
  rcases h with rfl | rfl | rfl | rfl | rfl | rfl | rfl | rfl <;> decide

theorem tier1Cols_ne_nil {cols : List String} {c : String}
    (hc : c ∈ cols) (hmatch : strLower c ∈ DATE_CANDIDATES) :
    tier1Cols cols ≠ [] := by
  intro hnil
  rw [tier1Cols, List.filterMap_eq_nil_iff] at hnil
  obtain ⟨orig, horig⟩ := lowerLookup_isSome hc rfl
  have hnone := hnil (strLower c) hmatch
  rw [candidate_lower_self hmatch] at hnone
  rw [hnone] at horig
  exact Option.noConfusion horig

theorem tier1Cols_eq_nil {cols : List String}
    (h : ∀ c ∈ cols, strLower c ∉ DATE_CANDIDATES) : tier1Cols cols = [] := by
  rw [tier1Cols, List.filterMap_eq_nil_iff]
  intro cand hcand
  cases hlook : lowerLookup cols (strLower cand) with
  | none => rfl
  | some orig =>
    obtain ⟨hmem, hlow⟩ := lowerLookup_eq_some hlook
    exfalso
    apply h orig hmem
    rw [hlow, candidate_lower_self hcand]
    exact hcand

theorem tier1Cols_mem {cols : List String} {orig : String}
    (h : orig ∈ tier1Cols cols) : orig ∈ cols ∧ strLower orig ∈ DATE_CANDIDATES := by
  rw [tier1Cols, List.mem_filterMap] at h
  obtain ⟨cand, hcand, hlook⟩ := h
  obtain ⟨hmem, hlow⟩ := lowerLookup_eq_some hlook
  refine ⟨hmem, ?_⟩
  rw [hlow, candidate_lower_self hcand]
  exact hcand

theorem tier3_imp_tier2 {c : String} (h : tier3Pred c = true) : tier2Pred c = true := by
  have hdate : strHas "date" (strLower c) = true := by
    rw [tier3Pred, Bool.or_eq_true] at h
    rcases h with h | h
    · have hlow : strLower c = "date_key" := by simpa using h
      rw [strHas, hlow]; decide
    · rw [strEndsWith, decide_eq_true_eq] at h
      rw [strHas, decide_eq_true_eq]
      exact sub_trans_suffix (by decide) h
  simp [tier2Pred, hdate]

theorem tier3Cols_eq_nil {cols : List String} (h : tier2Cols cols = []) :
    tier3Cols cols = [] := by
  rw [tier2Cols, List.filter_eq_nil_iff] at h
  rw [tier3Cols, List.filter_eq_nil_iff]
  intro c hc h3
  exact h c hc (tier3_imp_tier2 h3)

/-- A column name that the spec requires to be quoted in the emitted SQL:
it holds a space, hyphen or double quote, or lower-cases to the reserved
word `date`. -/
def specialName (orig : String) : Prop :=
  hasAnyChar orig SPECIAL_CHARS = true ∨ strLower orig = "date"

/-- C1: whenever the column list holds at least one case-insensitive match to
a tier-1 name, `build_date_expr` returns the tier-1-derived expression (never
tier 2 or 3): the COALESCE (first-non-null-wins) of a cast-to-date of each
matched tier-1 candidate, where the candidates are gathered by walking the
fixed priority list `DATE_CANDIDATES` in order, so the leftmost COALESCE
argument belongs to the highest-priority matched name. -/
theorem claim_C1_tier1_priority (cols : List String)
    (h : ∃ c ∈ cols, strLower c ∈ DATE_CANDIDATES) :
    tier1Exprs cols ≠ []
    ∧ usedExprs cols = tier1Exprs cols
    ∧ build_date_expr cols
        = "COALESCE(" ++ String.intercalate ", " (tier1Exprs cols) ++ ")"
    ∧ tier1Cols cols
        = DATE_CANDIDATES.filterMap (fun cname => lowerLookup cols (strLower cname))
    ∧ tier1Exprs cols
        = (tier1Cols cols).map (fun orig => "TRY_CAST(" ++ quoteTier1 orig ++ " AS DATE)") := by
  obtain ⟨c, hc, hmatch⟩ := h
  have h1 : tier1Cols cols ≠ [] := tier1Cols_ne_nil hc hmatch
  have he : tier1Exprs cols ≠ [] := by
    rw [tier1Exprs]
    simpa using h1
  have hne : ¬ ((tier1Exprs cols).isEmpty = true) := by
    simp [isEmpty_false_of_ne_nil he]
  have hused : usedExprs cols = tier1Exprs cols := by
    rw [usedExprs, if_neg hne]
  refine ⟨he, hused, ?_, rfl, rfl⟩
  rw [build_date_expr, hused, if_neg hne]

/-- Witness for C1: the column list `["TPEP_Pickup_Datetime", "trips"]` has a
case-insensitive tier-1 match, so the resolver stays in tier 1. -/
theorem claim_C1_witness :
    tier1Exprs ["TPEP_Pickup_Datetime", "trips"] ≠ [] :=
  (claim_C1_tier1_priority ["TPEP_Pickup_Datetime", "trips"]
    ⟨"TPEP_Pickup_Datetime", by decide, by decide⟩).1

/-- C2 counterexample: `["date_key"]` is a column list whose only date-like
column is named exactly `date_key`, yet tier 2 already matches it (its name
holds the substring `date`), so the resolver emits the plain tier-2
cast-to-date and not the 8-digit YYYYMMDD STRPTIME parse the claim asks for;
no tier-2-free list with a `date_key` column can exist. -/
theorem claim_C2_counterexample :
    tier1Exprs ["date_key"] = []
    ∧ tier2Exprs ["date_key"] ≠ []
    ∧ build_date_expr ["date_key"] = "COALESCE(TRY_CAST(t.date_key AS DATE))"
    ∧ ¬ ("STRPTIME".data <:+: (build_date_expr ["date_key"]).data) := by decide

/-- C2 amended: the tier-3 branch is dead code.  Any column named `date_key`
or ending in `_date_key` also satisfies the tier-2 test, so on a column list
with no tier-1 match whose date-like columns are `date_key`-shaped the
resolver returns the tier-2 plain cast-to-date expression, and whenever
tier 2 yields nothing tier 3 yields nothing either. -/
theorem claim_C2_amended (cols : List String)
    (h1 : tier1Exprs cols = [])
    (h3 : ∃ c ∈ cols, tier3Pred c = true) :
    tier2Exprs cols ≠ []
    ∧ usedExprs cols = tier2Exprs cols
    ∧ build_date_expr cols
        = "COALESCE(" ++ String.intercalate ", " (tier2Exprs cols) ++ ")"
    ∧ (∀ cs : List String, tier2Exprs cs = [] → tier3Exprs cs = []) := by
  obtain ⟨c, hc, hp3⟩ := h3
  have hc2 : c ∈ tier2Cols cols := by
    rw [tier2Cols, List.mem_filter]
    exact ⟨hc, tier3_imp_tier2 hp3⟩
  have he2 : tier2Exprs cols ≠ [] := by
    rw [tier2Exprs]
    simp only [ne_eq, List.map_eq_nil_iff]
    intro hnil
    rw [hnil] at hc2
    exact List.not_mem_nil c hc2
  have hne2 : ¬ ((tier2Exprs cols).isEmpty = true) := by
    simp [isEmpty_false_of_ne_nil he2]
  have hused : usedExprs cols = tier2Exprs cols := by
    rw [usedExprs, h1, if_pos (show ([] : List String).isEmpty = true from rfl), if_neg hne2]
  refine ⟨he2, hused, ?_, ?_⟩
  · rw [build_date_expr, hused, if_neg hne2]
  · intro cs hnil
    have hcs : tier2Cols cs = [] := by
      rw [tier2Exprs, List.map_eq_nil_iff] at hnil
      exact hnil
    rw [tier3Exprs, tier3Cols_eq_nil hcs]
    rfl

/-- Witness for the amended C2: `["trip_date_key"]` has no tier-1 match and
its column satisfies the tier-3 test, yet tier 2 wins. -/
theorem claim_C2_witness :
    tier2Exprs ["trip_date_key"] ≠ [] :=
  (claim_C2_amended ["trip_date_key"] (by decide)
    ⟨"trip_date_key", by decide, by decide⟩).1

/-- C6: with no case-insensitive tier-1 match but at least one column passing
the tier-2 test (lower-cased name holds `date` or `datetime`, or is exactly
`dt`, `ds` or `day`, or ends in `_date`), the resolver returns the tier-2
expression: a cast-to-date of each such column, in the table's original
column order. -/
theorem claim_C6_tier2_fallback (cols : List String)
    (h1 : ∀ c ∈ cols, strLower c ∉ DATE_CANDIDATES)
    (h2 : ∃ c ∈ cols, tier2Pred c = true) :
    tier2Exprs cols ≠ []
    ∧ usedExprs cols = tier2Exprs cols
    ∧ build_date_expr cols
        = "COALESCE(" ++ String.intercalate ", " (tier2Exprs cols) ++ ")"
    ∧ tier2Exprs cols
        = (cols.filter tier2Pred).map
            (fun orig => "TRY_CAST(" ++ quoteTier2 orig ++ " AS DATE)") := by
  obtain ⟨c, hc, hp⟩ := h2
  have he1 : tier1Exprs cols = [] := by
    rw [tier1Exprs, tier1Cols_eq_nil h1]
    rfl
  have hc2 : c ∈ tier2Cols cols := by
    rw [tier2Cols, List.mem_filter]
    exact ⟨hc, hp⟩
  have he2 : tier2Exprs cols ≠ [] := by
    rw [tier2Exprs]
    simp only [ne_eq, List.map_eq_nil_iff]
    intro hnil
    rw [hnil] at hc2
    exact List.not_mem_nil c hc2
  have hne2 : ¬ ((tier2Exprs cols).isEmpty = true) := by
    simp [isEmpty_false_of_ne_nil he2]
  have hused : usedExprs cols = tier2Exprs cols := by
    rw [usedExprs, he1, if_pos (show ([] : List String).isEmpty = true from rfl), if_neg hne2]
  refine ⟨he2, hused, ?_, rfl⟩
  rw [build_date_expr, hused, if_neg hne2]

/-- Witness for C6: `["trip_date", "trips"]` has no tier-1 match and one
tier-2 match. -/
theorem claim_C6_witness :
    tier2Exprs ["trip_date", "trips"] ≠ [] :=
  (claim_C6_tier2_fallback ["trip_date", "trips"] (by decide)
    ⟨"trip_date", by decide, by decide⟩).1

/-- C7: when no column matches any of the three tiers, the resolver returns
the typed NULL constant `NULL::DATE`.  It is a total function on column
lists, so resolution never raises for any input. -/
theorem claim_C7_null_fallback (cols : List String)
    (h1 : ∀ c ∈ cols, strLower c ∉ DATE_CANDIDATES)
    (h2 : ∀ c ∈ cols, tier2Pred c = false)
    (h3 : ∀ c ∈ cols, tier3Pred c = false) :
    build_date_expr cols = "NULL::DATE" := by
  have he1 : tier1Exprs cols = [] := by
    rw [tier1Exprs, tier1Cols_eq_nil h1]
    rfl
  have hc2 : tier2Cols cols = [] := by
    rw [tier2Cols, List.filter_eq_nil_iff]
    intro c hc
    simp [h2 c hc]
  have hc3 : tier3Cols cols = [] := by
    rw [tier3Cols, List.filter_eq_nil_iff]
    intro c hc
    simp [h3 c hc]
  have he2 : tier2Exprs cols = [] := by
    rw [tier2Exprs, hc2]
    rfl
  have he3 : tier3Exprs cols = [] := by
    rw [tier3Exprs, hc3]
    rfl
  rw [build_date_expr, usedExprs, he1, he2, he3]
  rfl

/-- Witness for C7 at `["zone", "trips"]`. -/
theorem claim_C7_witness : build_date_expr ["zone", "trips"] = "NULL::DATE" :=
  claim_C7_null_fallback ["zone", "trips"] (by decide) (by decide) (by decide)

/-- C8 counterexample: the column name `my"date` holds a double-quote
character, one of the cases the claim explicitly covers, and is selected by
tier 2; the code wraps the name verbatim without doubling the embedded quote,
so the emitted fragment `t."my"date"` is not a valid SQL delimited identifier
(the interior quote ends the identifier early).  The output holds the raw
quote and no doubled-quote escape sequence anywhere, refuting the claim that
the emitted expression remains syntactically valid SQL. -/
theorem claim_C8_counterexample :
    build_date_expr ["my\"date"]
        = "COALESCE(TRY_CAST(t.\"my\"date\" AS DATE))"
    ∧ '"' ∈ "my\"date".data
    ∧ ¬ ("\"\"".data <:+: (build_date_expr ["my\"date"]).data) := by decide

/-- C8 amended: every expression emitted by the resolver casts a column of
the input list, and any selected column holding a space, hyphen or double
quote, or whose lower-cased name is the reserved word `date`, is wrapped in
double quotes as `t."name"` with the name inserted verbatim — no escaping of
embedded quote characters — while a column needing no quoting appears as
`t.name`.  The wrapping keeps the expression syntactically valid for names
with spaces or hyphens or the reserved word `date`, but a name holding a
double quote is emitted unescaped and yields malformed SQL. -/
theorem claim_C8_amended (cols : List String) (e : String)
    (h : e ∈ usedExprs cols) :
    ∃ orig, orig ∈ cols
      ∧ ((specialName orig
            ∧ e = "TRY_CAST(" ++ ("t.\"" ++ orig ++ "\"") ++ " AS DATE)")
        ∨ (¬ specialName orig
            ∧ e = "TRY_CAST(" ++ ("t." ++ orig) ++ " AS DATE)")) := by
  rw [usedExprs] at h
  by_cases h1 : (tier1Exprs cols).isEmpty = true
  · rw [if_pos h1] at h
    by_cases h2 : (tier2Exprs cols).isEmpty = true
    · rw [if_pos h2] at h
      exfalso
      have hc2 : tier2Cols cols = [] := by
        have hnil := isEmpty_eq_nil h2
        rwa [tier2Exprs, List.map_eq_nil_iff] at hnil
      rw [tier3Exprs, tier3Cols_eq_nil hc2] at h
      exact List.not_mem_nil e h
    · rw [if_neg h2] at h
      rw [tier2Exprs] at h
      obtain ⟨orig, horig, hE⟩ := List.mem_map.mp h
      have hmem : orig ∈ cols := (List.mem_filter.mp horig).1
      refine ⟨orig, hmem, ?_⟩
      rw [quoteTier2] at hE
      by_cases hq : hasAnyChar orig SPECIAL_CHARS = true
      · left
        rw [if_pos hq] at hE
        exact ⟨Or.inl hq, hE.symm⟩
      · right
        have hnd : strLower orig ≠ "date" := by
          intro hd
          have hmatch : strLower orig ∈ DATE_CANDIDATES := by
            rw [hd]
            decide
          have hn1 : tier1Cols cols ≠ [] := tier1Cols_ne_nil hmem hmatch
          have he1 : tier1Cols cols = [] := by
            have hnil := isEmpty_eq_nil h1
            rwa [tier1Exprs, List.map_eq_nil_iff] at hnil
          exact hn1 he1
        rw [if_neg hq] at hE
        refine ⟨?_, hE.symm⟩
        intro hs
        rcases hs with hs | hs
        · exact hq hs
        · exact hnd hs
  · rw [if_neg h1] at h
    rw [tier1Exprs] at h
    obtain ⟨orig, horig, hE⟩ := List.mem_map.mp h
    have hmem : orig ∈ cols := (tier1Cols_mem horig).1
    refine ⟨orig, hmem, ?_⟩
    rw [quoteTier1] at hE
    by_cases hq : (strLower orig == "date" || hasAnyChar orig SPECIAL_CHARS) = true
    · left
      rw [if_pos hq] at hE
      refine ⟨?_, hE.symm⟩
      rw [Bool.or_eq_true] at hq
      rcases hq with hq | hq
      · exact Or.inr (by simpa using hq)
      · exact Or.inl hq
    · right
      rw [if_neg hq] at hE
      refine ⟨?_, hE.symm⟩
      simp only [Bool.or_eq_true, not_or] at hq
      intro hs
      rcases hs with hs | hs
      · exact hq.2 hs
      · exact hq.1 (by simp [hs])

/-- Witness for the amended C8: the column `my date` holds a space, and the
emitted expression wraps it in double quotes. -/
theorem claim_C8_witness :
    ∃ orig, orig ∈ ["my date"]
      ∧ ((specialName orig
            ∧ "TRY_CAST(t.\"my date\" AS DATE)"
              = "TRY_CAST(" ++ ("t.\"" ++ orig ++ "\"") ++ " AS DATE)")
        ∨ (¬ specialName orig
            ∧ "TRY_CAST(t.\"my date\" AS DATE)"
              = "TRY_CAST(" ++ ("t." ++ orig) ++ " AS DATE)")) :=
  claim_C8_amended ["my date"] "TRY_CAST(t.\"my date\" AS DATE)" (by decide)

/-! Model of `main` (build_duckdb.py lines 61-96): the output-database file,
`resolve_source`, the table-creation loop and the view loop.  The filesystem's
glob results are abstracted as a function from glob pattern to matched paths,
and the observable effects of the embedded database engine (connecting creates
the file; each executed CREATE statement is committed immediately) are
recorded in a `DbFile` state. -/

/-- `DATA_DIR` from build_duckdb.py. -/
def DATA_DIR : String := "data"

/-- `FILES` from build_duckdb.py: table name and folder glob per dataset. -/
def FILES : List (String × String) :=
  [("dim_taxi_zone",         "01_dim_taxi_zone/*.parquet"),
   ("pu_zone_daily",         "02_fact_trips_sample/*.parquet"),
   ("daily_service_metrics", "03_daily_service_metrics/*.parquet"),
   ("zone_pair_flow",        "04_zone_pair_flow/*.parquet"),
   ("payment_mix",           "05_payment_mix/*.parquet"),
   ("vendor_share",          "06_vendor_share/*.parquet"),
   ("tip_hotspots",          "07_tip_hotspots/*.parquet"),
   ("airport_traffic_daily", "08_airport_traffic_daily/*.parquet"),
   ("service_efficiency",    "09_service_efficiency/*.parquet"),
   ("rush_hour_pickups",     "10_rush_hour_pickups/*.parquet")]

/-- Observable state of the output database file: whether it exists on disk,
whether it is still the file written by an earlier run, and its contents. -/
structure DbFile where
  present : Bool
  fromPreviousRun : Bool
  tables : List String
  views : List String
deriving DecidableEq

/-- `resolve_source` (lines 27-33): join the relative glob onto `DATA_DIR`,
ask the filesystem for matches, and raise `FileNotFoundError` when there are
none; otherwise return the pattern and the match count. -/
def resolve_source (globFn : String → List String) (pattern_rel : String) :
    Except String (String × Nat) :=
  let pat := DATA_DIR ++ "/" ++ pattern_rel
  if (globFn pat).isEmpty then .error ("No parquet files match: " ++ pat)
  else .ok (pat, (globFn pat).length)

/-- `os.remove(OUT_DB)` guarded by `os.path.exists` (lines 62-63). -/
def deleteIfExists (f : DbFile) : DbFile :=
  if f.present then ⟨false, false, [], []⟩ else f

/-- `duckdb.connect(OUT_DB)` (line 64): opens the file, creating it empty
when it does not exist. -/
def connectDb (f : DbFile) : DbFile :=
  if f.present then f else ⟨true, false, [], []⟩

/-- `CREATE OR REPLACE TABLE tbl AS ...` (lines 69-72). -/
def createTable (f : DbFile) (tbl : String) : DbFile :=
  { f with tables := f.tables.filter (fun s => s != tbl) ++ [tbl] }

/-- The table-creation loop (lines 67-74): each dataset is resolved and
materialized in turn; a `FileNotFoundError` from `resolve_source` propagates,
leaving the file in its state at the moment of failure. -/
def buildTables (globFn : String → List String) :
    List (String × String) → DbFile → Except (String × DbFile) DbFile
  | [], f => .ok f
  | (tbl, rel) :: rest, f =>
    match resolve_source globFn rel with
    | .error msg => .error (msg, f)
    | .ok _ => buildTables globFn rest (createTable f tbl)

/-- `CREATE OR REPLACE VIEW v_tbl AS ...` (lines 83-94). -/
def createView (f : DbFile) (tbl : String) : DbFile :=
  { f with views := f.views.filter (fun s => s != "v_" ++ tbl) ++ ["v_" ++ tbl] }

/-- The view loop (lines 77-96). -/
def createViews (f : DbFile) (datasets : List (String × String)) : DbFile :=
  datasets.foldl (fun acc d => createView acc d.1) f

/-- `main` up to the view loop: delete any previous output file, connect
(creating a fresh file), materialize every dataset, then create the views.
An error in the table loop propagates and nothing after it runs. -/
def mainBuild (globFn : String → List String) (prev : DbFile) :
    Except (String × DbFile) DbFile :=
  match buildTables globFn FILES (connectDb (deleteIfExists prev)) with
  | .error e => .error e
  | .ok f => .ok (createViews f FILES)

/-- Flatten a build outcome to data with decidable equality. -/
def buildOutcome (r : Except (String × DbFile) DbFile) : Bool × String × DbFile :=
  match r with
  | .error (msg, st) => (false, msg, st)
  | .ok st => (true, "", st)

/-- The table list that the per-dataset CREATE OR REPLACE steps leave behind. -/
def tablesAfter (init : List String) (names : List String) : List String :=
  names.foldl (fun ts t => ts.filter (fun s => s != t) ++ [t]) init

theorem connect_fresh (prev : DbFile) :
    connectDb (deleteIfExists prev) = ⟨true, false, [], []⟩ := by
  rw [deleteIfExists]
  by_cases h : prev.present = true
  · rw [if_pos h, connectDb]
    rfl
  · rw [if_neg h, connectDb, if_neg h]

theorem foldl_createTable (names : List (String × String)) :
    ∀ f : DbFile,
      names.foldl (fun acc d => createTable acc d.1) f
        = ⟨f.present, f.fromPreviousRun,
           tablesAfter f.tables (names.map Prod.fst), f.views⟩ := by
  induction names with
  | nil => intro f; rfl
  | cons d rest ih =>
    intro f
    rw [List.foldl_cons, ih]
    rfl

theorem buildTables_front (globFn : String → List String)
    (rest : List (String × String)) :
    ∀ (pre : List (String × String)) (f : DbFile),
      (∀ d ∈ pre, globFn (DATA_DIR ++ "/" ++ d.2) ≠ []) →
      buildTables globFn (pre ++ rest) f
        = buildTables globFn rest (pre.foldl (fun acc d => createTable acc d.1) f) := by
  intro pre
  induction pre with
  | nil => intro f _; rfl
  | cons d tl ih =>
    intro f hpre
    have hne : globFn (DATA_DIR ++ "/" ++ d.2) ≠ [] :=
      hpre d (List.mem_cons_self d tl)
    rw [List.cons_append, buildTables, resolve_source]
    rw [isEmpty_false_of_ne_nil hne]
    simp only [Bool.false_eq_true, if_false]
    exact ih (createTable f d.1) (fun x hx => hpre x (List.mem_cons_of_mem d hx))

/-- C3 counterexample: with one part file for the first dataset and an empty
glob for the second, the build halts with the missing-input error, but the
freshly created output database file is left on disk holding the first
dataset's table — a partially-constructed output database. -/
theorem claim_C3_counterexample :
    buildOutcome
        (mainBuild
          (fun pat => if pat == "data/01_dim_taxi_zone/*.parquet"
                      then ["data/01_dim_taxi_zone/part-000.parquet"] else [])
          ⟨true, true, ["old_table"], ["v_old"]⟩)
      = (false, "No parquet files match: data/02_fact_trips_sample/*.parquet",
         ⟨true, false, ["dim_taxi_zone"], []⟩) := by decide

/-- C3 amended: when a dataset's glob matches zero files (every earlier
dataset having matched something), the build raises the missing-input failure
and halts — later datasets and the view loop never run — and the previous
output file was deleted before the build; however the output database file
created at connect time is left on disk, holding exactly the tables of the
datasets processed before the failure (a partial database, not none). -/
theorem claim_C3_amended (globFn : String → List String) (prev : DbFile)
    (pre : List (String × String)) (tbl rel : String)
    (post : List (String × String))
    (hsplit : FILES = pre ++ (tbl, rel) :: post)
    (hpre : ∀ d ∈ pre, globFn (DATA_DIR ++ "/" ++ d.2) ≠ [])
    (hfail : globFn (DATA_DIR ++ "/" ++ rel) = []) :
    mainBuild globFn prev
      = .error ("No parquet files match: " ++ (DATA_DIR ++ "/" ++ rel),
          ⟨true, false, tablesAfter [] (pre.map Prod.fst), []⟩) := by
  rw [mainBuild, connect_fresh, hsplit]
  rw [buildTables_front globFn ((tbl, rel) :: post) pre ⟨true, false, [], []⟩ hpre]
  rw [foldl_createTable]
  rw [buildTables, resolve_source]
  have hEmpty : (globFn (DATA_DIR ++ "/" ++ rel)).isEmpty = true := by
    rw [hfail]
    rfl
  rw [hEmpty]
  rfl

/-- Witness for the amended C3 at the concrete glob assignment of the
counterexample: the first dataset resolves, the second does not. -/
theorem claim_C3_witness :
    mainBuild
        (fun pat => if pat == "data/01_dim_taxi_zone/*.parquet"
                    then ["data/01_dim_taxi_zone/part-000.parquet"] else [])
        ⟨true, true, ["old_table"], ["v_old"]⟩
      = .error ("No parquet files match: "
            ++ (DATA_DIR ++ "/" ++ "02_fact_trips_sample/*.parquet"),
          ⟨true, false, tablesAfter [] ([("dim_taxi_zone", "01_dim_taxi_zone/*.parquet")].map Prod.fst), []⟩) :=
  claim_C3_amended
    (fun pat => if pat == "data/01_dim_taxi_zone/*.parquet"
                then ["data/01_dim_taxi_zone/part-000.parquet"] else [])
    ⟨true, true, ["old_table"], ["v_old"]⟩
    [("dim_taxi_zone", "01_dim_taxi_zone/*.parquet")]
    "pu_zone_daily" "02_fact_trips_sample/*.parquet"
    [("daily_service_metrics", "03_daily_service_metrics/*.parquet"),
     ("zone_pair_flow",        "04_zone_pair_flow/*.parquet"),
     ("payment_mix",           "05_payment_mix/*.parquet"),
     ("vendor_share",          "06_vendor_share/*.parquet"),
     ("tip_hotspots",          "07_tip_hotspots/*.parquet"),
     ("airport_traffic_daily", "08_airport_traffic_daily/*.parquet"),
     ("service_efficiency",    "09_service_efficiency/*.parquet"),
     ("rush_hour_pickups",     "10_rush_hour_pickups/*.parquet")]
    (by decide) (by decide) (by decide)

/-! Model of the best-effort index pass (build_duckdb.py lines 98-107). -/

/-- The table list of the index loop (lines 103-105). -/
def INDEX_TABLES : List String :=
  ["daily_service_metrics", "payment_mix", "airport_traffic_daily",
   "service_efficiency", "rush_hour_pickups", "pu_zone_daily",
   "zone_pair_flow", "tip_hotspots", "vendor_share"]

/-- Executing `CREATE INDEX IF NOT EXISTS idx ON tbl(col)`: the engine raises
when the indexed column is absent from the table's schema, and otherwise
creates the index. -/
def execCreateIdx (schema : String → List String) (tbl col idx : String) :
    Except String String :=
  if col ∈ schema tbl then .ok idx
  else .error "Binder Error: column does not exist"

/-- `try_idx` (lines 99-101): run the statement and silently swallow any
exception, so a failure leaves the accumulated state unchanged. -/
def try_idx (acc : List String) (r : Except String String) : List String :=
  match r with
  | .ok idx => acc ++ [idx]
  | .error _ => acc

/-- The index loop (lines 103-107): for every listed table, attempt a
`pickup_date` index and a `service_type` index. -/
def indexPass (schema : String → List String) : List String :=
  INDEX_TABLES.foldl
    (fun acc tbl =>
      try_idx
        (try_idx acc (execCreateIdx schema tbl "pickup_date" ("idx_" ++ tbl ++ "_date")))
        (execCreateIdx schema tbl "service_type" ("idx_" ++ tbl ++ "_svc")))
    []

theorem indexPass_foldl (schema : String → List String) :
    ∀ (ts : List String) (acc : List String),
      ts.foldl
          (fun acc tbl =>
            try_idx
              (try_idx acc (execCreateIdx schema tbl "pickup_date" ("idx_" ++ tbl ++ "_date")))
              (execCreateIdx schema tbl "service_type" ("idx_" ++ tbl ++ "_svc")))
          acc
        = acc ++ ts.flatMap (fun tbl =>
            (if "pickup_date" ∈ schema tbl then ["idx_" ++ tbl ++ "_date"] else [])
            ++ (if "service_type" ∈ schema tbl then ["idx_" ++ tbl ++ "_svc"] else [])) := by
  intro ts
  induction ts with
  | nil => intro acc; simp
  | cons t tl ih =>
    intro acc
    rw [List.foldl_cons, ih, List.flatMap_cons]
    by_cases h1 : "pickup_date" ∈ schema t <;>
      by_cases h2 : "service_type" ∈ schema t <;>
        simp [try_idx, execCreateIdx, h1, h2]

/-- C9: the index pass is a total function of the schemas — it never aborts
the build.  For every schema assignment it attempts both index statements for
every listed table, in order: a statement whose column exists contributes its
index, a failing statement is silently skipped, and later tables are still
processed after any failure. -/
theorem claim_C9_best_effort_indexes (schema : String → List String) :
    indexPass schema
      = INDEX_TABLES.flatMap (fun tbl =>
          (if "pickup_date" ∈ schema tbl then ["idx_" ++ tbl ++ "_date"] else [])
          ++ (if "service_type" ∈ schema tbl then ["idx_" ++ tbl ++ "_svc"] else [])) := by
  rw [indexPass, indexPass_foldl schema INDEX_TABLES []]
  rfl

/-! Semantic model of cell values, `TRY_CAST(... AS DATE)`, and the
normalizing views `v_<table>` (build_duckdb.py lines 76-96). -/

/-- A cell value as seen by the date cast: NULL, a DATE, a string that parses
as a date, or any value on which the cast fails. -/
inductive Value where
  | null
  | date (d : Int)
  | strDate (d : Int)
  | bad
deriving DecidableEq

/-- Semantics of `TRY_CAST(x AS DATE)`: DATE values and parseable strings
cast to their date; NULL and malformed values yield NULL rather than an
error. -/
def tryCastDate : Value → Option Int
  | .null => none
  | .date d => some d
  | .strDate d => some d
  | .bad => none

/-- The columns referenced by the winning tier, mirroring `usedExprs`
(the expression lists are the per-column maps of these lists). -/
def chosenCols (cols : List String) : List String :=
  if (tier1Cols cols).isEmpty then
    (if (tier2Cols cols).isEmpty then tier3Cols cols else tier2Cols cols)
  else tier1Cols cols

/-- Row-level semantics of the resolved date expression: COALESCE is
first-non-null-wins over the casts of the chosen columns, in order.  (The
tier-3 STRPTIME parse needs no separate semantics: tier 3 is reached only
when tier 2 is empty, and then it is empty itself.) -/
def resolvedDateVal (cols : List String) (row : String → Value) : Option Int :=
  ((chosenCols cols).map (fun c => tryCastDate (row c))).findSome? id

/-- Wrap the resolved date back into a cell value. -/
def valOfDate : Option Int → Value
  | some d => .date d
  | none => .null

/-- A materialized table: ordered column list, and rows mapping column names
to values. -/
structure Table where
  cols : List String
  rows : List (String → Value)

/-- Column list of the view `v_<table>`: when some column is already named
pickup_date (the check on line 80 is case-insensitive), the view selects
`t.* EXCLUDE (pickup_date)` plus the recomputed `pickup_date`; otherwise
`t.*` plus the recomputed column. -/
def viewCols (cols : List String) : List String :=
  if cols.any (fun c => strLower c == "pickup_date")
  then cols.filter (fun c => !(strLower c == "pickup_date")) ++ ["pickup_date"]
  else cols ++ ["pickup_date"]

/-- Row transformer of the view: every retained column keeps its base-table
value; `pickup_date` carries the resolved date expression's value. -/
def viewRowFn (cols : List String) (row : String → Value) : String → Value :=
  fun c =>
    if strLower c == "pickup_date" then valOfDate (resolvedDateVal cols row)
    else row c

/-- The view `v_<table>`: one output row per base row (a SELECT without WHERE
neither drops nor duplicates rows). -/
def viewTable (t : Table) : Table :=
  ⟨viewCols t.cols, t.rows.map (viewRowFn t.cols)⟩

/-- C4: for a table already exposing a `pickup_date` column, the view drops
the raw column and appends the recomputed one, so exactly one `pickup_date`
column remains; and when the raw column holds a valid date, the recomputed
column round-trips that same value (tier 1's highest-priority candidate is
`pickup_date` itself, and COALESCE takes its non-null cast first). -/
theorem claim_C4_exclude_roundtrip (cols : List String) (row : String → Value)
    (d : Int)
    (h1 : "pickup_date" ∈ cols)
    (h2 : ∀ c ∈ cols, strLower c = "pickup_date" → c = "pickup_date")
    (h3 : row "pickup_date" = Value.date d) :
    viewCols cols
        = cols.filter (fun c => !(strLower c == "pickup_date")) ++ ["pickup_date"]
    ∧ (viewCols cols).countP (fun c => strLower c == "pickup_date") = 1
    ∧ viewRowFn cols row "pickup_date" = Value.date d := by
  have hpd : (strLower "pickup_date" == "pickup_date") = true := by decide
  have hany : cols.any (fun c => strLower c == "pickup_date") = true :=
    List.any_eq_true.mpr ⟨"pickup_date", h1, hpd⟩
  have hview : viewCols cols
      = cols.filter (fun c => !(strLower c == "pickup_date")) ++ ["pickup_date"] := by
    rw [viewCols, if_pos hany]
  refine ⟨hview, ?_, ?_⟩
  · rw [hview, List.countP_append]
    have hz : (cols.filter (fun c => !(strLower c == "pickup_date"))).countP
        (fun c => strLower c == "pickup_date") = 0 := by
      rw [List.countP_eq_zero]
      intro a ha
      have := (List.mem_filter.mp ha).2
      simpa using this
    rw [hz]
    simp [hpd]
  · obtain ⟨orig, horig⟩ := lowerLookup_isSome h1 (show strLower "pickup_date" = "pickup_date" from by decide)
    obtain ⟨hmem, hlow⟩ := lowerLookup_eq_some horig
    have horig' : orig = "pickup_date" := h2 orig hmem hlow
    rw [horig'] at horig
    have hf : lowerLookup cols (strLower "pickup_date") = some "pickup_date" := by
      rw [show strLower "pickup_date" = "pickup_date" from by decide]
      exact horig
    obtain ⟨tl, htl⟩ : ∃ tl, tier1Cols cols = "pickup_date" :: tl := by
      simp only [tier1Cols, DATE_CANDIDATES, List.filterMap_cons, hf]
      exact ⟨_, rfl⟩
    have hchosen : chosenCols cols = "pickup_date" :: tl := by
      rw [chosenCols, htl]
      rfl
    have hval : resolvedDateVal cols row = some d := by
      rw [resolvedDateVal, hchosen, List.map_cons, h3]
      simp [tryCastDate, List.findSome?_cons]
    simp only [viewRowFn]
    rw [if_pos hpd, hval]
    rfl

/-- Sample row for the C4 witness: a valid date in `pickup_date`. -/
def sampleRow : String → Value :=
  fun c => if c == "pickup_date" then .date 20240701 else .bad

/-- Witness for C4 on the concrete table `(pickup_date, trips)`. -/
theorem claim_C4_witness :
    viewRowFn ["pickup_date", "trips"] sampleRow "pickup_date"
      = Value.date 20240701 :=
  (claim_C4_exclude_roundtrip ["pickup_date", "trips"] sampleRow 20240701
    (by decide) (by decide) (by decide)).2.2

/-- C5: the normalizing view has exactly the same rows as its source table —
one view row per table row, in order, agreeing with the table row on every
column other than `pickup_date` — and the column lists of view and table
agree outside `pickup_date`. -/
theorem claim_C5_view_same_rows (t : Table) :
    List.Forall₂
        (fun vr tr => ∀ c : String, strLower c ≠ "pickup_date" → vr c = tr c)
        (viewTable t).rows t.rows
    ∧ (viewTable t).rows.length = t.rows.length
    ∧ (viewTable t).cols.filter (fun c => !(strLower c == "pickup_date"))
        = t.cols.filter (fun c => !(strLower c == "pickup_date")) := by
  refine ⟨?_, ?_, ?_⟩
  · rw [viewTable]
    rw [List.forall₂_map_left_iff]
    rw [List.forall₂_same]
    intro r _ c hc
    simp only [viewRowFn]
    rw [if_neg ?_]
    simp [hc]
  · rw [viewTable]
    exact List.length_map t.rows (viewRowFn t.cols)
  · rw [viewTable]
    simp only [viewCols]
    have hone : List.filter (fun c => !(strLower c == "pickup_date")) ["pickup_date"]
        = [] := by decide
    by_cases h : t.cols.any (fun c => strLower c == "pickup_date") = true
    · rw [if_pos h, List.filter_append, hone, List.append_nil, List.filter_filter]
      simp
    · rw [if_neg h, List.filter_append, hone, List.append_nil]

/-! Model of `filter_by_date_service` (streamlit_app.py lines 119-136). -/

/-- One row of a dashboard frame: the `pickup_date` cell after
`pd.to_datetime(..., errors="coerce")` (`none` is a missing or unparseable
value, i.e. NaT) and the `service_type` cell (`none` is a missing value). -/
structure Row where
  pickup_date : Option Int
  service_type : Option String
deriving DecidableEq

/-- A dashboard frame: whether the two relevant columns exist, and the rows. -/
structure Frame where
  hasPickupDate : Bool
  hasServiceType : Bool
  rows : List Row
deriving DecidableEq

/-- The per-row date-range test once the date filter is active (line 130):
a NaT date fails both comparisons, so the row is dropped. -/
def dateKeep (start_date end_date : Int) (r : Row) : Bool :=
  match r.pickup_date with
  | some d => decide (start_date ≤ d) && decide (d ≤ end_date)
  | none => false

/-- Lines 126-130: the date filter runs only when the `pickup_date` column
exists and holds at least one non-null parseable value. -/
def dateStage (df : Frame) (start_date end_date : Int) : Frame :=
  if df.hasPickupDate && df.rows.any (fun r => r.pickup_date.isSome)
  then { df with rows := df.rows.filter (dateKeep start_date end_date) }
  else df

/-- Lines 132-134: the service filter runs only when the `service_type`
column exists and the selected list is non-empty; a null service fails
`isin`. -/
def serviceStage (df : Frame) (services : List String) : Frame :=
  if df.hasServiceType && !services.isEmpty
  then { df with rows := df.rows.filter (fun r =>
          match r.service_type with
          | some s => services.contains s
          | none => false) }
  else df

/-- `filter_by_date_service` (lines 119-136): an empty frame is returned
unchanged; otherwise the date stage runs, then the service stage. -/
def filter_by_date_service (df : Frame) (start_date end_date : Int)
    (services : List String) : Frame :=
  if df.rows.isEmpty then df
  else serviceStage (dateStage df start_date end_date) services

/-- C10: on a non-empty frame the function is the date stage followed by the
service stage; the date filter fires only when the `pickup_date` column
exists with at least one non-null value — when the column is absent or all
null, the frame passes through the date stage unchanged — and with an empty
selected-services list the service stage changes nothing. -/
theorem claim_C10_filter_guards (df : Frame) (start_date end_date : Int)
    (services : List String) (hne : df.rows ≠ []) :
    filter_by_date_service df start_date end_date services
        = serviceStage (dateStage df start_date end_date) services
    ∧ ((df.hasPickupDate = false ∨ ∀ r ∈ df.rows, r.pickup_date = none) →
        dateStage df start_date end_date = df)
    ∧ (df.hasPickupDate = true → (∃ r ∈ df.rows, r.pickup_date ≠ none) →
        (dateStage df start_date end_date).rows
          = df.rows.filter (dateKeep start_date end_date))
    ∧ (services = [] →
        serviceStage (dateStage df start_date end_date) services
          = dateStage df start_date end_date) := by
  refine ⟨?_, ?_, ?_, ?_⟩
  · rw [filter_by_date_service, if_neg ?_]
    simp [isEmpty_false_of_ne_nil hne]
  · intro h
    rw [dateStage, if_neg ?_]
    rcases h with h | h
    · simp [h]
    · have hany : df.rows.any (fun r => r.pickup_date.isSome) = false := by
        rw [List.any_eq_false]
        intro r hr
        simp [h r hr]
      simp [hany]
  · intro hcol hex
    obtain ⟨r, hr, hrd⟩ := hex
    have hany : df.rows.any (fun r => r.pickup_date.isSome) = true :=
      List.any_eq_true.mpr ⟨r, hr, by simpa [Option.isSome_iff_ne_none] using hrd⟩
    have hcond : (df.hasPickupDate && df.rows.any fun r => r.pickup_date.isSome)
        = true := by
      rw [hcol, hany]
      rfl
    rw [dateStage, if_pos hcond]
  · intro h
    rw [serviceStage, if_neg ?_]
    simp [h]

/-- Frame for the C10 witness: no `pickup_date` column. -/
def sampleFrame : Frame := ⟨false, true, [⟨none, some "yellow"⟩]⟩

/-- Witness for C10: with no `pickup_date` column, the date stage is the
identity. -/
theorem claim_C10_witness : dateStage sampleFrame 0 10 = sampleFrame :=
  (claim_C10_filter_guards sampleFrame 0 10 [] (by decide)).2.1 (Or.inl rfl)

end NYCTaxi
